import Mathlib

/-!
Shallow embedding of `src/model.py` (c3bottles data model).

Timestamps (`datetime`) are modelled as natural numbers (seconds); the
wall clock `datetime.today()` is passed in explicitly as a `now` argument.
A Python argument that may be `None` (or any value whose conversion via
`int(...)`/`float(...)` raises `TypeError`/`ValueError`) is modelled as an
`Option`; `none` stands for the unconvertible case.  Python floats are
modelled as rationals.  A raised `ValueError(errors)` (the validation
error carrying field → message pairs) is modelled as `Except.error` with
the list of pairs, in the order the source appends them.
-/

namespace C3bottles

abbrev Time := Nat

/-- One field → message pair of an aggregated validation error
(the dicts appended to the `errors` list in `model.py`). -/
structure FieldError where
  field : String
  message : String
deriving DecidableEq, Repr

/-- A row of the `location` table (class `Location`): the fields
`__init__` assigns on the successfully constructed object. -/
structure Location where
  start_time : Time
  description : String
  lat : Rat
  lng : Rat
  level : Int
deriving DecidableEq, Repr

/-- A row of the `capacity` table (class `Capacity`).  The column is
declared `crates = db.Column(db.Integer, default=default_crate_count)`,
so a row whose `__init__` left the attribute unset stores the column
default when persisted; `crates` here is the stored value. -/
structure Capacity where
  start_time : Time
  crates : Int
deriving DecidableEq, Repr

/-- A row of the `report` table (class `Report`). -/
structure Report where
  time : Time
  state : String
deriving DecidableEq, Repr

/-- A row of the `visit` table (class `Visit`). -/
structure Visit where
  time : Time
  action : String
deriving DecidableEq, Repr

/-- A drop point together with its related rows.  `locations` and
`capacities` are the relationship collections (declared with
`order_by` on `start_time`; entries appear here in insertion order,
which the timeline invariant keeps sorted), `reports` and `visits`
the dynamic event logs in insertion order. -/
structure DropPoint where
  number : Int
  removed : Option Time
  locations : List Location
  capacities : List Capacity
  reports : List Report
  visits : List Visit
deriving DecidableEq, Repr

/-- `Capacity.default_crate_count`. -/
def Capacity.default_crate_count : Int := 1

/-- Arguments of `Location.__init__` after the owning drop point. -/
structure LocationArgs where
  start_time : Option Time
  description : Option String
  lat : Option Rat
  lng : Option Rat
  level : Option Int
deriving DecidableEq, Repr

/-- Arguments of `Capacity.__init__` after the owning drop point.
`crates = none` models passing Python `None` (the parameter default is
`default_crate_count`, i.e. `some 1`). -/
structure CapacityArgs where
  start_time : Option Time
  crates : Option Int
deriving DecidableEq, Repr

/-- `str(description)`: never raises; `str(None)` is the string "None". -/
def descStr : Option String → String
  | some s => s
  | none => "None"

/-- The `errors` list built by `Location.__init__(dp, start_time,
description, lat, lng, level)`, in source order.  The `isinstance`
checks cannot fail in the typed embedding.  A `datetime` is always
truthy, so `if start_time and ...` tests `start_time` being non-`None`. -/
def Location.validationErrs (dp : DropPoint) (now : Time) (a : LocationArgs) :
    List FieldError :=
  (match a.start_time with
   | some t =>
     (if now < t then [⟨"Location", "Start time in the future."⟩] else []) ++
     (match dp.locations.getLast? with
      | some l =>
        if t < l.start_time then [⟨"Location", "Location older than current."⟩] else []
      | none => [])
   | none => []) ++
  (match a.lat with
   | none => [⟨"lat", "Latitude is not a floating point number."⟩]
   | some v =>
     if -90 < v ∧ v < 90 then [] else [⟨"lat", "Latitude is not between 90 degrees N/S."⟩]) ++
  (match a.lng with
   | none => [⟨"lng", "Longitude is not a floating point number."⟩]
   | some v =>
     if -180 < v ∧ v < 180 then []
     else [⟨"lat", "Longitude is not between 180 degrees W/E."⟩]) ++
  (match a.level with
   | none => [⟨"level", "Building level is not a number."⟩]
   | some _ => []) ++
  (if (descStr a.description).length > 140 then
     [⟨"description", "Room description is too long."⟩] else [])

/-- `Location.__init__`: collects all validation errors, raises them
together if any, otherwise yields the constructed row (which the source
then adds to the session). -/
def Location.init (dp : DropPoint) (now : Time) (a : LocationArgs) :
    Except (List FieldError) Location :=
  let errs := Location.validationErrs dp now a
  if errs = [] then
    .ok ⟨a.start_time.getD now, descStr a.description,
         a.lat.getD 0, a.lng.getD 0, a.level.getD 0⟩
  else .error errs

/-- The `errors` list built by `Capacity.__init__`.  When `crates` is
`None` the source assigns the default to the local variable only, so no
crate validation runs and no error is appended on that path. -/
def Capacity.validationErrs (dp : DropPoint) (now : Time) (a : CapacityArgs) :
    List FieldError :=
  (match a.start_time with
   | some t =>
     (if now < t then [⟨"Capacity", "Start time in the future."⟩] else []) ++
     (match dp.capacities.getLast? with
      | some c =>
        if t < c.start_time then [⟨"Capacity", "Capacity older than current."⟩] else []
      | none => [])
   | none => []) ++
  (match a.crates with
   | none => []
   | some c => if c < 0 then [⟨"crates", "Crate count is not positive."⟩] else [])

/-- `Capacity.__init__`.  On the `crates is None` path `self.crates` is
left unset and the stored value comes from the column default
`default_crate_count`. -/
def Capacity.init (dp : DropPoint) (now : Time) (a : CapacityArgs) :
    Except (List FieldError) Capacity :=
  let errs := Capacity.validationErrs dp now a
  if errs = [] then
    .ok ⟨a.start_time.getD now, a.crates.getD Capacity.default_crate_count⟩
  else .error errs

/-- Appending a new `Location` to a drop point's timeline: construct it
against the current timeline; on success the relationship collection
(ordered by `start_time`) gains the entry, on failure the error
propagates and the drop point is unchanged. -/
def DropPoint.addLocation (dp : DropPoint) (now : Time) (a : LocationArgs) :
    Except (List FieldError) DropPoint :=
  match Location.init dp now a with
  | .ok loc =>
    .ok ⟨dp.number, dp.removed, dp.locations ++ [loc], dp.capacities, dp.reports, dp.visits⟩
  | .error e => .error e

/-- Appending a new `Capacity` to a drop point's timeline. -/
def DropPoint.addCapacity (dp : DropPoint) (now : Time) (a : CapacityArgs) :
    Except (List FieldError) DropPoint :=
  match Capacity.init dp now a with
  | .ok cap =>
    .ok ⟨dp.number, dp.removed, dp.locations, dp.capacities ++ [cap], dp.reports, dp.visits⟩
  | .error e => .error e

/-- The session/store visible to the data model: the drop point numbers
already persisted (what `db.session.query(DropPoint).get(number)` can
find) and the `Location`/`Capacity` rows that have been
`db.session.add`ed. -/
structure Session where
  dpNumbers : List Int
  locations : List Location
  capacities : List Capacity
deriving DecidableEq, Repr

/-- Arguments of `DropPoint.__init__`. -/
structure DropPointArgs where
  number : Option Int
  description : Option String
  lat : Option Rat
  lng : Option Rat
  level : Option Int
  crates : Option Int
  start_time : Option Time
deriving DecidableEq, Repr

/-- The `number` validation block of `DropPoint.__init__`: conversion,
positivity, and the duplicate check against the session. -/
def DropPoint.numberErrs (sess : Session) (number : Option Int) : List FieldError :=
  match number with
  | none => [⟨"number", "Drop point number is not a number."⟩]
  | some n =>
    (if n < 1 then [⟨"number", "Drop point number is not positive."⟩] else []) ++
    (if n ∈ sess.dpNumbers then [⟨"number", "That drop point already exists."⟩] else [])

/-- `DropPoint.__init__`: validates the number, constructs the initial
`Location` and `Capacity` against the fresh (empty-timeline) drop point,
collecting their errors, and raises the aggregate if non-empty.  A
sub-construction that succeeded has already added its row to the session
before the aggregate error is raised; only on full success is the drop
point itself added. -/
def DropPoint.init (sess : Session) (now : Time) (a : DropPointArgs) :
    Except (List FieldError) DropPoint × Session :=
  let numErrs := DropPoint.numberErrs sess a.number
  let self0 : DropPoint := ⟨a.number.getD 0, none, [], [], [], []⟩
  match Location.init self0 now ⟨a.start_time, a.description, a.lat, a.lng, a.level⟩,
        Capacity.init self0 now ⟨a.start_time, a.crates⟩ with
  | .ok loc, .ok cap =>
    if numErrs = [] then
      (.ok ⟨a.number.getD 0, none, [loc], [cap], [], []⟩,
       ⟨sess.dpNumbers ++ [a.number.getD 0],
        sess.locations ++ [loc], sess.capacities ++ [cap]⟩)
    else
      (.error numErrs,
       ⟨sess.dpNumbers, sess.locations ++ [loc], sess.capacities ++ [cap]⟩)
  | .ok loc, .error ce =>
    (.error (numErrs ++ ce),
     ⟨sess.dpNumbers, sess.locations ++ [loc], sess.capacities⟩)
  | .error le, .ok cap =>
    (.error (numErrs ++ le),
     ⟨sess.dpNumbers, sess.locations, sess.capacities ++ [cap]⟩)
  | .error le, .error ce =>
    (.error (numErrs ++ le ++ ce), sess)

/-- The row with the greatest `time` among a list, modelling
`order_by(time.desc()).first()`; among equal times the earliest
inserted row is kept (the tie order of the underlying query). -/
def latestBy (time : α → Time) (l : List α) : Option α :=
  l.foldl
    (fun acc x =>
      match acc with
      | none => some x
      | some b => if time b < time x then some x else some b)
    none

/-- `DropPoint.get_last_report`. -/
def DropPoint.get_last_report (dp : DropPoint) : Option Report :=
  latestBy Report.time dp.reports

/-- `DropPoint.get_last_visit`. -/
def DropPoint.get_last_visit (dp : DropPoint) : Option Visit :=
  latestBy Visit.time dp.visits

/-- `DropPoint.get_new_reports`: the reports strictly newer than the
last visit (all reports when never visited).  The source orders the
result by descending time; the order is irrelevant to every consumer
in the model (the priority sums over it), so insertion order is kept. -/
def DropPoint.get_new_reports (dp : DropPoint) : List Report :=
  match dp.get_last_visit with
  | some v => dp.reports.filter (fun r => v.time < r.time)
  | none => dp.reports

/-- `DropPoint.get_current_crate_count`: the latest capacity's crate
count, 0 when the capacity timeline is empty. -/
def DropPoint.get_current_crate_count (dp : DropPoint) : Int :=
  match dp.capacities.getLast? with
  | some c => c.crates
  | none => 0

/-- `DropPoint.get_last_state`. -/
def DropPoint.get_last_state (dp : DropPoint) : String :=
  match dp.get_last_report, dp.get_last_visit with
  | some r, some v =>
    if r.time < v.time ∧ v.action = "EMPTIED" then "EMPTY" else r.state
  | some r, none => r.state
  | none, _ => "UNKNOWN"

/-- `Report.get_weight`: currently the constant 1. -/
def Report.get_weight (_ : Report) : Rat := 1

/-- `DropPoint.get_visit_interval`: fixed at 2 hours in seconds. -/
def DropPoint.get_visit_interval (_ : DropPoint) : Rat := 120 * 60

/-- Python `round(q, 2)` on the idealised (exact rational) value:
round half to even at two decimal places. -/
def pyRound2 (q : Rat) : Rat :=
  let s : Rat := q * 100
  let f : Int := ⌊s⌋
  let frac : Rat := s - f
  let r : Int :=
    if frac < 1 / 2 then f
    else if 1 / 2 < frac then f + 1
    else if f % 2 = 0 then f else f + 1
  (r : Rat) / 100

/-- `DropPoint.get_priority`: 0 for a removed drop point; otherwise a
base of 1 plus the weights of the new reports, boosted by the crate
factor when at least one crate is present, scaled by elapsed time since
the last visit over the visit interval (or by 3 when never visited),
rounded to two decimals. -/
def DropPoint.get_priority (dp : DropPoint) (now : Time) : Rat :=
  if dp.removed.isSome then 0
  else
    let priority : Rat := 1 + (dp.get_new_reports.map Report.get_weight).sum
    let priority : Rat :=
      if 1 ≤ dp.get_current_crate_count then
        priority * (1 + 1 / 10 * (dp.get_current_crate_count : Rat))
      else priority
    let priority : Rat :=
      match dp.get_last_visit with
      | some v => priority * (((now : Rat) - (v.time : Rat)) / dp.get_visit_interval)
      | none => priority * 3
    pyRound2 priority

/-- The start times of a drop point's location timeline, in sequence. -/
def locStarts (dp : DropPoint) : List Time := dp.locations.map Location.start_time

/-- The start times of a drop point's capacity timeline, in sequence. -/
def capStarts (dp : DropPoint) : List Time := dp.capacities.map Capacity.start_time

/-- A timeline's start times are well-formed at wall-clock time `now`:
consecutive entries are non-decreasing and the last one is not in the
future. -/
def startTimesOk (now : Time) : List Time → Bool
  | [] => true
  | [t] => decide (t ≤ now)
  | t :: u :: r => decide (t ≤ u) && startTimesOk now (u :: r)

theorem startTimesOk_mono {now now' : Time} (h : now ≤ now') :
    ∀ ts, startTimesOk now ts = true → startTimesOk now' ts = true
  | [], _ => rfl
  | [t], ht => by
    simp only [startTimesOk, decide_eq_true_eq] at ht ⊢
    exact le_trans ht h
  | t :: u :: r, ht => by
    simp only [startTimesOk, Bool.and_eq_true, decide_eq_true_eq] at ht ⊢
    exact ⟨ht.1, startTimesOk_mono h (u :: r) ht.2⟩

theorem startTimesOk_last {now u : Time} :
    ∀ ts, startTimesOk now ts = true → ts.getLast? = some u → u ≤ now
  | [], _, hl => by simp at hl
  | [t], ht, hl => by
    simp only [List.getLast?_singleton, Option.some.injEq] at hl
    simp only [startTimesOk, decide_eq_true_eq] at ht
    exact hl ▸ ht
  | t :: v :: r, ht, hl => by
    simp only [startTimesOk, Bool.and_eq_true, decide_eq_true_eq] at ht
    exact startTimesOk_last (v :: r) ht.2 (by simpa using hl)

theorem startTimesOk_append {now x : Time} :
    ∀ ts, startTimesOk now ts = true → (∀ u, ts.getLast? = some u → u ≤ x) →
      x ≤ now → startTimesOk now (ts ++ [x]) = true
  | [], _, _, hx => by
    simpa only [List.nil_append, startTimesOk, decide_eq_true_eq] using hx
  | [t], _, hu, hx => by
    simp only [List.cons_append, List.nil_append, startTimesOk, Bool.and_eq_true,
      decide_eq_true_eq]
    exact ⟨hu t rfl, hx⟩
  | t :: v :: r, ht, hu, hx => by
    simp only [startTimesOk, Bool.and_eq_true, decide_eq_true_eq] at ht
    simp only [List.cons_append, startTimesOk, Bool.and_eq_true, decide_eq_true_eq]
    refine ⟨ht.1, ?_⟩
    exact startTimesOk_append (v :: r) ht.2 (fun u h => hu u (by simpa using h)) hx

theorem locationInit_ok_facts {dp : DropPoint} {now : Time} {a : LocationArgs}
    {loc : Location} (h : Location.init dp now a = .ok loc) :
    loc.start_time = a.start_time.getD now ∧ loc.start_time ≤ now ∧
    (∀ t l, a.start_time = some t → dp.locations.getLast? = some l →
      l.start_time ≤ loc.start_time) := by
  by_cases hE : Location.validationErrs dp now a = []
  · simp only [Location.init, hE, if_pos, Except.ok.injEq] at h
    subst h
    refine ⟨rfl, ?_, ?_⟩
    · cases ha : a.start_time with
      | none => simp [ha]
      | some t =>
        simp only [ha, Option.getD_some]
        by_contra hlt
        simp only [Location.validationErrs, ha, List.append_eq_nil] at hE
        simp [Nat.lt_of_not_le hlt] at hE
    · intro t l ha hl
      simp only [ha, Option.getD_some]
      by_contra hlt
      simp only [Location.validationErrs, ha, hl, List.append_eq_nil] at hE
      simp [Nat.lt_of_not_le hlt] at hE
  · simp [Location.init, hE] at h

theorem capacityInit_ok_facts {dp : DropPoint} {now : Time} {a : CapacityArgs}
    {cap : Capacity} (h : Capacity.init dp now a = .ok cap) :
    cap.start_time = a.start_time.getD now ∧ cap.start_time ≤ now ∧
    (∀ t c, a.start_time = some t → dp.capacities.getLast? = some c →
      c.start_time ≤ cap.start_time) := by
  by_cases hE : Capacity.validationErrs dp now a = []
  · simp only [Capacity.init, hE, if_pos, Except.ok.injEq] at h
    subst h
    refine ⟨rfl, ?_, ?_⟩
    · cases ha : a.start_time with
      | none => simp [ha]
      | some t =>
        simp only [ha, Option.getD_some]
        by_contra hlt
        simp only [Capacity.validationErrs, ha, List.append_eq_nil] at hE
        simp [Nat.lt_of_not_le hlt] at hE
    · intro t c ha hl
      simp only [ha, Option.getD_some]
      by_contra hlt
      simp only [Capacity.validationErrs, ha, hl, List.append_eq_nil] at hE
      simp [Nat.lt_of_not_le hlt] at hE
  · simp [Capacity.init, hE] at h

/-- C1: for every drop point whose location and capacity timelines are
non-decreasing in start time (and not already in the future), any
successful `Location`/`Capacity` construction at a later-or-equal
wall-clock instant keeps both timelines non-decreasing in start time,
and any construction attempt whose explicit start time is strictly
earlier than the current last entry's start time raises a
`ValidationError` carrying the "older than current" pair, adding no
entry. -/
theorem c1_timeline_monotone_append
    (dp : DropPoint) (now now' : Time)
    (hnn : now ≤ now')
    (hloc : startTimesOk now (locStarts dp) = true)
    (hcap : startTimesOk now (capStarts dp) = true) :
    (∀ a dp', dp.addLocation now' a = .ok dp' →
      startTimesOk now' (locStarts dp') = true)
    ∧ (∀ a dp', dp.addCapacity now' a = .ok dp' →
      startTimesOk now' (capStarts dp') = true)
    ∧ (∀ (a : LocationArgs) t l, a.start_time = some t →
      dp.locations.getLast? = some l → t < l.start_time →
      ∃ e, dp.addLocation now' a = .error e ∧
        (⟨"Location", "Location older than current."⟩ : FieldError) ∈ e)
    ∧ (∀ (a : CapacityArgs) t c, a.start_time = some t →
      dp.capacities.getLast? = some c → t < c.start_time →
      ∃ e, dp.addCapacity now' a = .error e ∧
        (⟨"Capacity", "Capacity older than current."⟩ : FieldError) ∈ e) := by
  refine ⟨?_, ?_, ?_, ?_⟩
  · intro a dp' hok
    simp only [DropPoint.addLocation] at hok
    cases hI : Location.init dp now' a with
    | error e => rw [hI] at hok; exact absurd hok (by simp)
    | ok loc =>
      rw [hI] at hok
      simp only [Except.ok.injEq] at hok
      subst hok
      obtain ⟨hts, hle, hlast⟩ := locationInit_ok_facts hI
      simp only [locStarts, List.map_append, List.map_cons, List.map_nil]
      apply startTimesOk_append _ (startTimesOk_mono hnn _ hloc) _ hle
      intro u hu
      rw [locStarts, List.getLast?_map] at hu
      cases hl : dp.locations.getLast? with
      | none => rw [hl] at hu; exact absurd hu (by simp)
      | some l =>
        rw [hl] at hu
        simp only [Option.map_some', Option.some.injEq] at hu
        subst hu
        cases ha : a.start_time with
        | none =>
          have := startTimesOk_last (locStarts dp) hloc
            (by rw [locStarts, List.getLast?_map, hl]; rfl)
          rw [hts, ha, Option.getD_none]
          exact le_trans this hnn
        | some t => exact hlast t l ha hl
  · intro a dp' hok
    simp only [DropPoint.addCapacity] at hok
    cases hI : Capacity.init dp now' a with
    | error e => rw [hI] at hok; exact absurd hok (by simp)
    | ok cap =>
      rw [hI] at hok
      simp only [Except.ok.injEq] at hok
      subst hok
      obtain ⟨hts, hle, hlast⟩ := capacityInit_ok_facts hI
      simp only [capStarts, List.map_append, List.map_cons, List.map_nil]
      apply startTimesOk_append _ (startTimesOk_mono hnn _ hcap) _ hle
      intro u hu
      rw [capStarts, List.getLast?_map] at hu
      cases hl : dp.capacities.getLast? with
      | none => rw [hl] at hu; exact absurd hu (by simp)
      | some c =>
        rw [hl] at hu
        simp only [Option.map_some', Option.some.injEq] at hu
        subst hu
        cases ha : a.start_time with
        | none =>
          have := startTimesOk_last (capStarts dp) hcap
            (by rw [capStarts, List.getLast?_map, hl]; rfl)
          rw [hts, ha, Option.getD_none]
          exact le_trans this hnn
        | some t => exact hlast t c ha hl
  · intro a t l ha hl hlt
    refine ⟨Location.validationErrs dp now' a, ?_, ?_⟩
    · have hmem : (⟨"Location", "Location older than current."⟩ : FieldError) ∈
          Location.validationErrs dp now' a := by
        simp [Location.validationErrs, ha, hl, hlt]
      have hne : Location.validationErrs dp now' a ≠ [] :=
        List.ne_nil_of_mem hmem
      simp [DropPoint.addLocation, Location.init, hne]
    · simp [Location.validationErrs, ha, hl, hlt]
  · intro a t c ha hl hlt
    refine ⟨Capacity.validationErrs dp now' a, ?_, ?_⟩
    · have hmem : (⟨"Capacity", "Capacity older than current."⟩ : FieldError) ∈
          Capacity.validationErrs dp now' a := by
        simp [Capacity.validationErrs, ha, hl, hlt]
      have hne : Capacity.validationErrs dp now' a ≠ [] :=
        List.ne_nil_of_mem hmem
      simp [DropPoint.addCapacity, Capacity.init, hne]
    · simp [Capacity.validationErrs, ha, hl, hlt]

/-- A concrete drop point with one location and one capacity, both with
start time 4, used to exercise `c1_timeline_monotone_append`. -/
def dpTimelineW : DropPoint :=
  ⟨1, none, [⟨4, "x", 50, 9, 0⟩], [⟨4, 2⟩], [], []⟩

/-- Witness for C1 at a concrete drop point: a successful append keeps
the location timeline sorted, and back-dated location and capacity
appends are rejected with the "older than current" messages. -/
theorem c1_timeline_monotone_append_witness :
    startTimesOk 10
      (locStarts ⟨1, none, [⟨4, "x", 50, 9, 0⟩, ⟨6, "y", 1, 2, 3⟩], [⟨4, 2⟩], [], []⟩) = true
    ∧ (∃ e, dpTimelineW.addLocation 10 ⟨some 3, some "x", some 50, some 9, some 0⟩ =
        .error e ∧ (⟨"Location", "Location older than current."⟩ : FieldError) ∈ e)
    ∧ (∃ e, dpTimelineW.addCapacity 10 ⟨some 3, some 2⟩ =
        .error e ∧ (⟨"Capacity", "Capacity older than current."⟩ : FieldError) ∈ e) := by
  have h := c1_timeline_monotone_append dpTimelineW 5 10 (by decide) (by decide) (by decide)
  refine ⟨?_, ?_, ?_⟩
  · exact h.1 ⟨some 6, some "y", some 1, some 2, some 3⟩ _ rfl
  · exact h.2.2.1 ⟨some 3, some "x", some 50, some 9, some 0⟩ 3 ⟨4, "x", 50, 9, 0⟩
      rfl (by decide) (by decide)
  · exact h.2.2.2 ⟨some 3, some 2⟩ 3 ⟨4, 2⟩ rfl (by decide) (by decide)

theorem latestBy_foldl_some (time : α → Time) :
    ∀ (xs : List α) (b : α),
      (xs.foldl
        (fun acc x =>
          match acc with
          | none => some x
          | some b => if time b < time x then some x else some b)
        (some b)).isSome = true
  | [], _ => rfl
  | x :: xs, b => by
    simp only [List.foldl_cons]
    by_cases h : time b < time x
    · rw [if_pos h]; exact latestBy_foldl_some time xs x
    · rw [if_neg h]; exact latestBy_foldl_some time xs b

theorem latestBy_isSome (time : α → Time) (l : List α) (h : l ≠ []) :
    (latestBy time l).isSome = true := by
  cases l with
  | nil => exact absurd rfl h
  | cons x xs => exact latestBy_foldl_some time xs x

/-- C2: `get_last_state` is UNKNOWN with neither reports nor visits;
with reports but no visit it is the most recent report's state; with
both it is EMPTY when the most recent visit is strictly later than the
most recent report and was an emptying, and the most recent report's
state otherwise. -/
theorem c2_get_last_state (dp : DropPoint) :
    (dp.reports = [] → dp.visits = [] → dp.get_last_state = "UNKNOWN")
    ∧ (dp.reports ≠ [] → dp.get_last_report.isSome = true)
    ∧ (∀ r, dp.get_last_report = some r → dp.visits = [] →
      dp.get_last_state = r.state)
    ∧ (∀ r v, dp.get_last_report = some r → dp.get_last_visit = some v →
      dp.get_last_state =
        if r.time < v.time ∧ v.action = "EMPTIED" then "EMPTY" else r.state) := by
  refine ⟨?_, ?_, ?_, ?_⟩
  · intro hr hv
    simp [DropPoint.get_last_state, DropPoint.get_last_report,
      DropPoint.get_last_visit, hr, hv, latestBy]
  · intro hr
    exact latestBy_isSome Report.time dp.reports hr
  · intro r hr hv
    have hv' : dp.get_last_visit = none := by
      simp [DropPoint.get_last_visit, hv, latestBy]
    simp [DropPoint.get_last_state, hr, hv']
  · intro r v hr hv
    simp [DropPoint.get_last_state, hr, hv]

/-- Witness for C2 on concrete drop points: no history gives UNKNOWN, a
lone FULL report stands, a later EMPTIED visit overrides it to EMPTY,
and a later NO_ACTION visit leaves it FULL. -/
theorem c2_get_last_state_witness :
    DropPoint.get_last_state ⟨1, none, [], [], [], []⟩ = "UNKNOWN"
    ∧ DropPoint.get_last_state ⟨1, none, [], [], [⟨3, "FULL"⟩], []⟩ = "FULL"
    ∧ DropPoint.get_last_state ⟨1, none, [], [], [⟨3, "FULL"⟩], [⟨4, "EMPTIED"⟩]⟩ =
      "EMPTY"
    ∧ DropPoint.get_last_state ⟨1, none, [], [], [⟨3, "FULL"⟩], [⟨4, "NO_ACTION"⟩]⟩ =
      "FULL" := by
  refine ⟨(c2_get_last_state ⟨1, none, [], [], [], []⟩).1 rfl rfl, ?_, ?_, ?_⟩
  · exact (c2_get_last_state ⟨1, none, [], [], [⟨3, "FULL"⟩], []⟩).2.2.1
      ⟨3, "FULL"⟩ rfl rfl
  · rw [(c2_get_last_state ⟨1, none, [], [], [⟨3, "FULL"⟩], [⟨4, "EMPTIED"⟩]⟩).2.2.2
      ⟨3, "FULL"⟩ ⟨4, "EMPTIED"⟩ rfl rfl]
    decide
  · rw [(c2_get_last_state ⟨1, none, [], [], [⟨3, "FULL"⟩], [⟨4, "NO_ACTION"⟩]⟩).2.2.2
      ⟨3, "FULL"⟩ ⟨4, "NO_ACTION"⟩ rfl rfl]
    decide

/-- C4: a removed drop point's priority is exactly 0, whatever its
reports, visits, capacities and the current time. -/
theorem c4_removed_priority_zero (dp : DropPoint) (now : Time)
    (h : dp.removed.isSome = true) : dp.get_priority now = 0 := by
  simp [DropPoint.get_priority, h]

/-- Witness for C4: a removed drop point with reports, a visit and
crates still scores 0. -/
theorem c4_removed_priority_zero_witness :
    DropPoint.get_priority
      ⟨1, some 9, [], [⟨0, 5⟩], [⟨3, "OVERFLOW"⟩, ⟨4, "FULL"⟩], [⟨1, "EMPTIED"⟩]⟩ 50 =
      0 :=
  c4_removed_priority_zero _ 50 rfl

theorem weights_sum_eq_length :
    ∀ l : List Report, (l.map Report.get_weight).sum = (l.length : Rat)
  | [] => by simp
  | r :: rs => by
    simp only [List.map_cons, List.sum_cons, List.length_cons, Report.get_weight,
      weights_sum_eq_length rs]
    push_cast
    ring

/-- C3: a non-removed drop point with current crate count 2, never
visited, with exactly two reports (each of weight 1) has priority
(1 + 1 + 1) × 1.2 × 3 = 10.8. -/
theorem c3_priority_concrete_scenario (dp : DropPoint) (now : Time)
    (h1 : dp.removed = none) (h2 : dp.visits = [])
    (h3 : dp.reports.length = 2) (h4 : dp.get_current_crate_count = 2) :
    dp.get_priority now = 10.8 := by
  have hv : dp.get_last_visit = none := by
    simp [DropPoint.get_last_visit, h2, latestBy]
  have hnew : dp.get_new_reports = dp.reports := by
    simp [DropPoint.get_new_reports, hv]
  have hsum : (dp.get_new_reports.map Report.get_weight).sum = (2 : Rat) := by
    rw [hnew, weights_sum_eq_length, h3]
    norm_num
  simp only [DropPoint.get_priority, h1, Option.isSome_none, Bool.false_eq_true,
    if_false, hsum, h4, hv]
  norm_num [pyRound2]

/-- Witness for C3: the concrete scenario of the spec (drop point with
2 crates, never visited, reports FULL and OVERFLOW) scores 10.8. -/
theorem c3_priority_concrete_scenario_witness :
    DropPoint.get_priority
      ⟨1, none, [⟨0, "x", 50, 9, 0⟩], [⟨0, 2⟩], [⟨1, "FULL"⟩, ⟨2, "OVERFLOW"⟩], []⟩
      100 = 10.8 :=
  c3_priority_concrete_scenario _ 100 rfl rfl rfl rfl

/-- C10: a non-removed drop point whose last visit happened at the
current instant has priority 0, whatever its reports and crates — the
same score as a removed drop point. -/
theorem c10_visited_now_priority_zero (dp : DropPoint) (now : Time) (v : Visit)
    (h1 : dp.removed = none) (h2 : dp.get_last_visit = some v)
    (h3 : v.time = now) : dp.get_priority now = 0 := by
  simp only [DropPoint.get_priority, h1, Option.isSome_none, Bool.false_eq_true,
    if_false, h2, h3]
  rw [sub_self]
  norm_num [pyRound2]

/-- Witness for C10: an active drop point with five crates and a fresh
report, visited at the current instant 7, scores 0. -/
theorem c10_visited_now_priority_zero_witness :
    DropPoint.get_priority
      ⟨1, none, [], [⟨0, 5⟩], [⟨1, "FULL"⟩, ⟨2, "OVERFLOW"⟩], [⟨7, "EMPTIED"⟩]⟩ 7 =
      0 :=
  c10_visited_now_priority_zero _ 7 ⟨7, "EMPTIED"⟩ rfl rfl rfl

theorem locationInit_ok_errs {dp : DropPoint} {now : Time} {a : LocationArgs}
    {loc : Location} (h : Location.init dp now a = .ok loc) :
    Location.validationErrs dp now a = [] := by
  by_cases hE : Location.validationErrs dp now a = []
  · exact hE
  · simp [Location.init, hE] at h

theorem locationInit_error_errs {dp : DropPoint} {now : Time} {a : LocationArgs}
    {e : List FieldError} (h : Location.init dp now a = .error e) :
    Location.validationErrs dp now a = e := by
  by_cases hE : Location.validationErrs dp now a = []
  · simp [Location.init, hE] at h
  · simp only [Location.init, hE, if_neg, if_false, Except.error.injEq] at h
    exact h

theorem capacityInit_ok_errs {dp : DropPoint} {now : Time} {a : CapacityArgs}
    {cap : Capacity} (h : Capacity.init dp now a = .ok cap) :
    Capacity.validationErrs dp now a = [] := by
  by_cases hE : Capacity.validationErrs dp now a = []
  · exact hE
  · simp [Capacity.init, hE] at h

theorem capacityInit_error_errs {dp : DropPoint} {now : Time} {a : CapacityArgs}
    {e : List FieldError} (h : Capacity.init dp now a = .error e) :
    Capacity.validationErrs dp now a = e := by
  by_cases hE : Capacity.validationErrs dp now a = []
  · simp [Capacity.init, hE] at h
  · simp only [Capacity.init, hE, if_neg, if_false, Except.error.injEq] at h
    exact h

theorem capacityInit_ok_crates {dp : DropPoint} {now : Time} {a : CapacityArgs}
    {cap : Capacity} (h : Capacity.init dp now a = .ok cap) :
    cap.crates = a.crates.getD Capacity.default_crate_count := by
  by_cases hE : Capacity.validationErrs dp now a = []
  · simp only [Capacity.init, hE, if_pos, Except.ok.injEq] at h
    subst h
    rfl
  · simp [Capacity.init, hE] at h

/-- C6: whenever drop point construction fails, the single raised
validation error contains every field → message pair produced by the
number check, the initial Location validation and the initial Capacity
validation together. -/
theorem c6_aggregated_validation_errors (sess : Session) (now : Time)
    (a : DropPointArgs) (es : List FieldError) (s' : Session)
    (h : DropPoint.init sess now a = (.error es, s')) :
    (∀ p ∈ DropPoint.numberErrs sess a.number, p ∈ es)
    ∧ (∀ p ∈ Location.validationErrs ⟨a.number.getD 0, none, [], [], [], []⟩ now
        ⟨a.start_time, a.description, a.lat, a.lng, a.level⟩, p ∈ es)
    ∧ (∀ p ∈ Capacity.validationErrs ⟨a.number.getD 0, none, [], [], [], []⟩ now
        ⟨a.start_time, a.crates⟩, p ∈ es) := by
  simp only [DropPoint.init] at h
  cases hL : Location.init ⟨a.number.getD 0, none, [], [], [], []⟩ now
      ⟨a.start_time, a.description, a.lat, a.lng, a.level⟩ with
  | ok loc =>
    cases hC : Capacity.init ⟨a.number.getD 0, none, [], [], [], []⟩ now
        ⟨a.start_time, a.crates⟩ with
    | ok cap =>
      rw [hL, hC] at h
      by_cases hN : DropPoint.numberErrs sess a.number = []
      · simp [hN] at h
      · simp only [hN, if_neg, if_false, Prod.mk.injEq, Except.error.injEq] at h
        rw [locationInit_ok_errs hL, capacityInit_ok_errs hC, ← h.1]
        simp
    | error ce =>
      rw [hL, hC] at h
      simp only [Prod.mk.injEq, Except.error.injEq] at h
      rw [locationInit_ok_errs hL, capacityInit_error_errs hC, ← h.1]
      exact ⟨fun p hp => List.mem_append_left _ hp,
        fun p hp => absurd hp (List.not_mem_nil p),
        fun p hp => List.mem_append_right _ hp⟩
  | error le =>
    cases hC : Capacity.init ⟨a.number.getD 0, none, [], [], [], []⟩ now
        ⟨a.start_time, a.crates⟩ with
    | ok cap =>
      rw [hL, hC] at h
      simp only [Prod.mk.injEq, Except.error.injEq] at h
      rw [locationInit_error_errs hL, capacityInit_ok_errs hC, ← h.1]
      exact ⟨fun p hp => List.mem_append_left _ hp,
        fun p hp => List.mem_append_right _ hp,
        fun p hp => absurd hp (List.not_mem_nil p)⟩
    | error ce =>
      rw [hL, hC] at h
      simp only [Prod.mk.injEq, Except.error.injEq] at h
      rw [locationInit_error_errs hL, capacityInit_error_errs hC, ← h.1]
      exact ⟨fun p hp => List.mem_append_left _ (List.mem_append_left _ hp),
        fun p hp => List.mem_append_left _ (List.mem_append_right _ hp),
        fun p hp => List.mem_append_right _ hp⟩

/-- The aggregated error list raised for a construction with number 0,
latitude 95 and crate count -1 at once. -/
def esAggregated : List FieldError :=
  [⟨"number", "Drop point number is not positive."⟩,
   ⟨"lat", "Latitude is not between 90 degrees N/S."⟩,
   ⟨"crates", "Crate count is not positive."⟩]

/-- Witness for C6: a construction with a non-positive number, an
out-of-range latitude and a negative crate count raises one error
holding the pair from each of the three validations. -/
theorem c6_aggregated_validation_errors_witness :
    (⟨"number", "Drop point number is not positive."⟩ : FieldError) ∈ esAggregated
    ∧ (⟨"lat", "Latitude is not between 90 degrees N/S."⟩ : FieldError) ∈ esAggregated
    ∧ (⟨"crates", "Crate count is not positive."⟩ : FieldError) ∈ esAggregated := by
  have h := c6_aggregated_validation_errors ⟨[], [], []⟩ 5
    ⟨some 0, some "x", some 95, some 9, some 0, some (-1), none⟩
    esAggregated ⟨[], [], []⟩ (by rfl)
  exact ⟨h.1 _ (by decide), h.2.1 _ (by decide), h.2.2 _ (by decide)⟩

/-- C5 (evaluation of the code at the failing input): creating a drop
point whose number is already taken but whose location and capacity are
valid raises the duplicate-number error, yet the Location and Capacity
built along the way are left added to the session — the failed
construction is observable as orphan partial records. -/
theorem c5_failed_creation_leaves_partial_records :
    DropPoint.init ⟨[1], [], []⟩ 5
      ⟨some 1, some "x", some 50, some 9, some 0, some 1, none⟩ =
      (.error [⟨"number", "That drop point already exists."⟩],
       ⟨[1], [⟨5, "x", 50, 9, 0⟩], [⟨5, 1⟩]⟩) := by
  rfl

/-- C7 (evaluation of the code at the failing input): constructing a
Location with description, lat, lng and level all absent — the
"location unknown" state the class documentation promises to be
representable — raises a ValidationError for lat, lng and level
instead of succeeding. -/
theorem c7_unknown_location_rejected :
    Location.init ⟨1, none, [], [], [], []⟩ 5 ⟨none, none, none, none, none⟩ =
      .error [⟨"lat", "Latitude is not a floating point number."⟩,
        ⟨"lng", "Longitude is not a floating point number."⟩,
        ⟨"level", "Building level is not a number."⟩] := by
  rfl

/-- C9 (evaluation of the code at the failing input): lat=95 yields a
pair on the latitude field as claimed, but lat=45, lng=200 yields its
out-of-range longitude message under the field key "lat", so the raised
error has no pair on the longitude field. -/
theorem c9_coordinate_field_errors :
    Location.init ⟨1, none, [], [], [], []⟩ 5 ⟨none, some "x", some 95, some 9, some 0⟩ =
      .error [⟨"lat", "Latitude is not between 90 degrees N/S."⟩]
    ∧ Location.init ⟨1, none, [], [], [], []⟩ 5
        ⟨none, some "x", some 45, some 200, some 0⟩ =
      .error [⟨"lat", "Longitude is not between 180 degrees W/E."⟩]
    ∧ ([(⟨"lat", "Longitude is not between 180 degrees W/E."⟩ : FieldError)].all
        (fun p => p.field != "lng")) = true := by
  exact ⟨rfl, rfl, by decide⟩

/-- C8 counterexample: a Capacity with zero crates is constructible, so
a drop point with a non-empty capacity timeline can have current crate
count 0 — a count of 0 does not imply an empty timeline. -/
theorem c8_counterexample :
    Capacity.init ⟨1, none, [], [], [], []⟩ 5 ⟨none, some 0⟩ = .ok ⟨5, 0⟩
    ∧ DropPoint.get_current_crate_count ⟨1, none, [], [⟨5, 0⟩], [], []⟩ = 0
    ∧ (⟨1, none, [], [⟨5, 0⟩], [], []⟩ : DropPoint).capacities ≠ [] := by
  exact ⟨rfl, rfl, by decide⟩

/-- C8 (amended): a Capacity constructed with crates unspecified
(`None`) succeeds and stores the default crate count 1 (via the column
default), a drop point created without specifying crates has current
crate count 1, and the current crate count is 0 when the capacity
timeline is empty (a latest capacity of zero crates also yields 0). -/
theorem c8_crates_default (dp : DropPoint) (now : Time) :
    (Capacity.init dp now ⟨none, none⟩ = .ok ⟨now, 1⟩)
    ∧ (dp.capacities = [] → dp.get_current_crate_count = 0)
    ∧ (∀ (sess : Session) (a : DropPointArgs) (dp' : DropPoint) (s' : Session),
      a.crates = none → DropPoint.init sess now a = (.ok dp', s') →
      dp'.get_current_crate_count = 1) := by
  refine ⟨rfl, ?_, ?_⟩
  · intro h
    simp [DropPoint.get_current_crate_count, h]
  · intro sess a dp' s' hcr h
    simp only [DropPoint.init] at h
    cases hL : Location.init ⟨a.number.getD 0, none, [], [], [], []⟩ now
        ⟨a.start_time, a.description, a.lat, a.lng, a.level⟩ with
    | error le =>
      cases hC : Capacity.init ⟨a.number.getD 0, none, [], [], [], []⟩ now
          ⟨a.start_time, a.crates⟩ with
      | ok cap => rw [hL, hC] at h; simp at h
      | error ce => rw [hL, hC] at h; simp at h
    | ok loc =>
      cases hC : Capacity.init ⟨a.number.getD 0, none, [], [], [], []⟩ now
          ⟨a.start_time, a.crates⟩ with
      | error ce => rw [hL, hC] at h; simp at h
      | ok cap =>
        rw [hL, hC] at h
        by_cases hN : DropPoint.numberErrs sess a.number = []
        · simp only [hN, if_pos, Prod.mk.injEq, Except.ok.injEq] at h
          have hcap := capacityInit_ok_crates hC
          rw [hcr, Option.getD_none] at hcap
          rw [← h.1]
          simp [DropPoint.get_current_crate_count, hcap,
            Capacity.default_crate_count]
        · simp [hN] at h

/-- Witness for C8: a fresh drop point has crate count 0, and one
created without specifying crates ends with crate count 1. -/
theorem c8_crates_default_witness :
    DropPoint.get_current_crate_count ⟨1, none, [], [], [], []⟩ = 0
    ∧ DropPoint.get_current_crate_count
        ⟨2, none, [⟨7, "x", 50, 9, 0⟩], [⟨7, 1⟩], [], []⟩ = 1 := by
  have h := c8_crates_default ⟨1, none, [], [], [], []⟩ 7
  refine ⟨h.2.1 rfl, ?_⟩
  exact h.2.2 ⟨[], [], []⟩ ⟨some 2, some "x", some 50, some 9, some 0, none, none⟩
    ⟨2, none, [⟨7, "x", 50, 9, 0⟩], [⟨7, 1⟩], [], []⟩
    ⟨[2], [⟨7, "x", 50, 9, 0⟩], [⟨7, 1⟩]⟩ rfl rfl

end C3bottles
